import Mathlib

/-!
Verification of the PFC personal-finance computation engine (src/PFC.py).

The Python engine works on IEEE floats; we embed it over `ℚ` (exact
rationals), which matches the algebraic intent of every formula.  A Python
`ZeroDivisionError` (the only exception the numeric core can raise) is
modelled by `Option.none`; every other path returns `Option.some` of the
computed value, or a plain value when the Python function cannot raise.
Python's banker's rounding `round` is modelled exactly by `bankersRound`,
and `str.lower().strip()` by the structural `pyLowerStrip`.
-/

namespace PFC

/-- Python `str.lower()`, character by character (the inputs of interest are
ASCII). -/
def pyLower (s : String) : String := ⟨s.data.map Char.toLower⟩

/-- Python `str.strip()`: drop leading and trailing whitespace. -/
def pyStrip (s : String) : String :=
  ⟨((s.data.dropWhile Char.isWhitespace).reverse.dropWhile Char.isWhitespace).reverse⟩

/-- Python `s.lower().strip()`, as used on regime and risk strings. -/
def pyLowerStrip (s : String) : String := pyStrip (pyLower s)

/-- The `clamp` helper from PFC.py: `max(lo, min(hi, x))`. -/
def clamp (x lo hi : ℚ) : ℚ := max lo (min hi x)

/-- Python `round` to an integer: round half to even (banker's rounding). -/
def bankersRound (q : ℚ) : ℤ :=
  let f := ⌊q⌋
  let frac := q - (f : ℚ)
  if frac < 1/2 then f
  else if 1/2 < frac then f + 1
  else if f % 2 = 0 then f else f + 1

/-- Python `round(x, 2)`: round to two decimal places, half to even. -/
def round2 (q : ℚ) : ℚ := (bankersRound (q * 100) : ℚ) / 100

/-- The `TaxSlab` dataclass: `up_to = None` means no upper bound. -/
structure TaxSlab where
  up_to : Option ℚ
  rate : ℚ
deriving DecidableEq

/-- The `TaxConfig` dataclass (FY 2024-25 baseline). -/
structure TaxConfig where
  rebate_threshold_new : ℚ
  rebate_threshold_old : ℚ
  std_deduction_new : ℚ
  std_deduction_old : ℚ
  max_80C_old : ℚ
  max_80D_old : ℚ
  cess_rate : ℚ
  slabs_new : List TaxSlab
  slabs_old : List TaxSlab
deriving DecidableEq

/-- The default `TaxConfig()` values from PFC.py. -/
def defaultTaxConfig : TaxConfig where
  rebate_threshold_new := 700000
  rebate_threshold_old := 500000
  std_deduction_new := 50000
  std_deduction_old := 50000
  max_80C_old := 150000
  max_80D_old := 25000
  cess_rate := 0.04
  slabs_new := [⟨some 300000, 0⟩, ⟨some 600000, 0.05⟩, ⟨some 900000, 0.10⟩,
                ⟨some 1200000, 0.15⟩, ⟨some 1500000, 0.20⟩, ⟨none, 0.30⟩]
  slabs_old := [⟨some 250000, 0⟩, ⟨some 500000, 0.05⟩, ⟨some 1000000, 0.20⟩,
                ⟨none, 0.30⟩]

/-- Loop body of `IndiaTaxCalculator._slab_tax`: the tax accrued by one slab,
`segment * rate` when `taxable > lower` and the segment
`min(taxable, upper) - lower` is positive, else nothing. -/
def segTax (taxable lower upper rate : ℚ) : ℚ :=
  if lower < taxable then
    (if 0 < min taxable upper - lower then (min taxable upper - lower) * rate else 0)
  else 0

/-- The slab loop of `IndiaTaxCalculator._slab_tax`, with the running `lower`
boundary made explicit; the recursion stops early (the `break`) once
`taxable <= lower` after `lower` is advanced to the slab's upper edge. -/
def slabTaxAux (taxable : ℚ) : List TaxSlab → ℚ → ℚ
  | [], _ => 0
  | slab :: rest, lower =>
    let upper := slab.up_to.getD taxable
    segTax taxable lower upper slab.rate +
      (if taxable ≤ upper then 0 else slabTaxAux taxable rest upper)

/-- The method `IndiaTaxCalculator._slab_tax(taxable, slabs)`. -/
def slab_tax (taxable : ℚ) (slabs : List TaxSlab) : ℚ := slabTaxAux taxable slabs 0

/-- The result dict returned by `IndiaTaxCalculator.estimate`. -/
structure TaxEstimateResult where
  regime : ℚ
  gross : ℚ
  std_deduction : ℚ
  deductions : ℚ
  taxable : ℚ
  base_tax : ℚ
  rebate : ℚ
  cess : ℚ
  total_tax : ℚ
  effective_rate : ℚ
deriving DecidableEq

/-- The method `IndiaTaxCalculator.estimate`: detailed tax estimate for India.  Positional
arguments follow the Python signature; the Python default config is
`defaultTaxConfig`.  `total / gross if gross else 0.0` becomes
`if gross = 0 then 0 else total / gross`. -/
def estimate (cfg : TaxConfig) (gross_annual_income : ℚ) (is_salaried : Bool)
    (regime : String) (deductions_old_80C deductions_old_80D : ℚ) :
    TaxEstimateResult :=
  let reg0 := pyLowerStrip regime
  let reg := if reg0 = "new" ∨ reg0 = "old" then reg0 else "new"
  let std_deduction :=
    if is_salaried = true ∧ reg = "new" then cfg.std_deduction_new
    else if is_salaried = true ∧ reg = "old" then cfg.std_deduction_old
    else 0
  if reg = "new" then
    let taxable := max 0 (gross_annual_income - std_deduction)
    let base_tax := slab_tax taxable cfg.slabs_new
    let rebate := if taxable ≤ cfg.rebate_threshold_new then base_tax else 0
    let tax_after_rebate := max 0 (base_tax - rebate)
    let cess := tax_after_rebate * cfg.cess_rate
    let total := tax_after_rebate + cess
    { regime := 1
      gross := gross_annual_income
      std_deduction := std_deduction
      deductions := 0
      taxable := taxable
      base_tax := base_tax
      rebate := rebate
      cess := cess
      total_tax := total
      effective_rate := if gross_annual_income = 0 then 0 else total / gross_annual_income }
  else
    let d80c := min cfg.max_80C_old (max 0 deductions_old_80C)
    let d80d := min cfg.max_80D_old (max 0 deductions_old_80D)
    let deductions := d80c + d80d + (if is_salaried = true then std_deduction else 0)
    let taxable := max 0 (gross_annual_income - deductions)
    let base_tax := slab_tax taxable cfg.slabs_old
    let rebate := if taxable ≤ cfg.rebate_threshold_old then base_tax else 0
    let tax_after_rebate := max 0 (base_tax - rebate)
    let cess := tax_after_rebate * cfg.cess_rate
    let total := tax_after_rebate + cess
    { regime := 0
      gross := gross_annual_income
      std_deduction := if is_salaried = true then std_deduction else 0
      deductions := deductions - (if is_salaried = true then std_deduction else 0)
      taxable := taxable
      base_tax := base_tax
      rebate := rebate
      cess := cess
      total_tax := total
      effective_rate := if gross_annual_income = 0 then 0 else total / gross_annual_income }

/-- The function `future_value_sip(monthly, annual_return_pct, years)`.  `none` stands for
the one exception Python can raise here, `ZeroDivisionError` from
`(1 + r) ** n` when `1 + r == 0` and `n < 0`; otherwise the numeric value. -/
def future_value_sip (monthly annual_return_pct years : ℚ) : Option ℚ :=
  let r := annual_return_pct / 100 / 12
  let n := bankersRound (years * 12)
  if r = 0 then some (monthly * (n : ℚ))
  else if 1 + r = 0 ∧ n < 0 then none
  else some (monthly * ((1 + r) ^ n - 1) / r * (1 + r))

/-- The function `required_sip(target, annual_return_pct, years)`.  `none` stands for a
Python `ZeroDivisionError`: `target / n` with `n == 0`, a zero denominator
`((1 + r) ** n - 1) / r * (1 + r)`, or `(1 + r) ** n` with base `0` and
`n < 0`. -/
def required_sip (target annual_return_pct years : ℚ) : Option ℚ :=
  let r := annual_return_pct / 100 / 12
  let n := bankersRound (years * 12)
  if r = 0 then (if n = 0 then none else some (target / (n : ℚ)))
  else if 1 + r = 0 ∧ n < 0 then none
  else
    let d := ((1 + r) ^ n - 1) / r * (1 + r)
    if d = 0 then none else some (target / d)

/-- The function `emi(principal, annual_rate_pct, years)`.  `none` stands for a Python
`ZeroDivisionError`: `principal / n` with `n == 0`, a zero denominator
`(1 + r) ** n - 1`, or `(1 + r) ** n` with base `0` and `n < 0`. -/
def emi (principal annual_rate_pct years : ℚ) : Option ℚ :=
  let r := annual_rate_pct / 100 / 12
  let n := bankersRound (years * 12)
  if r = 0 then (if n = 0 then none else some (principal / (n : ℚ)))
  else if 1 + r = 0 ∧ n < 0 then none
  else
    let p := (1 + r) ^ n
    if p - 1 = 0 then none else some (principal * r * p / (p - 1))

/-- The function `retirement_target(monthly_expense_today, years_to_retire, retired_years,
inflation_pct, swr_pct)`: returns `(corpus, future_monthly)`.  `none` stands
for a Python `ZeroDivisionError`: `(1 + inf) ** years_to_retire` with base `0`
and a negative exponent, or division by `swr_pct == 0`. -/
def retirement_target (monthly_expense_today : ℚ) (years_to_retire retired_years : ℤ)
    (inflation_pct swr_pct : ℚ) : Option (ℚ × ℚ) :=
  let inf := inflation_pct / 100
  if 1 + inf = 0 ∧ years_to_retire < 0 then none
  else
    let future_monthly := monthly_expense_today * (1 + inf) ^ years_to_retire
    let annual_need := future_monthly * 12
    if swr_pct = 0 then none
    else some (annual_need * 100 / swr_pct, future_monthly)

/-- An equity/debt/gold weight triple (the dict values in PFC.py). -/
structure Alloc where
  equity : ℚ
  debt : ℚ
  gold : ℚ
deriving DecidableEq

/-- The `RISK_ALLOCATION` table, as a lookup returning `none` off-key. -/
def riskTable (r : String) : Option Alloc :=
  if r = "conservative" then some ⟨0.3, 0.6, 0.1⟩
  else if r = "moderate" then some ⟨0.6, 0.3, 0.1⟩
  else if r = "aggressive" then some ⟨0.8, 0.15, 0.05⟩
  else none

/-- The function `suggest_allocation(risk, horizon_years)`: base split from
`RISK_ALLOCATION.get(risk, RISK_ALLOCATION["moderate"])`, horizon nudges on
equity and debt, then normalization by the sum and rounding to two decimals. -/
def suggest_allocation (risk : String) (horizon_years : ℤ) : Alloc :=
  let base := (riskTable (pyLowerStrip risk)).getD ⟨0.6, 0.3, 0.1⟩
  let nudged :=
    if 10 ≤ horizon_years then
      let e := clamp (base.equity + 0.05) 0.2 0.9
      { equity := e, debt := clamp (1 - e - base.gold) 0.05 0.75, gold := base.gold }
    else if horizon_years ≤ 3 then
      let e := clamp (base.equity - 0.15) 0.1 0.7
      { equity := e, debt := clamp (1 - e - base.gold) 0.2 0.85, gold := base.gold }
    else base
  let s := nudged.equity + nudged.debt + nudged.gold
  { equity := round2 (nudged.equity / s)
    debt := round2 (nudged.debt / s)
    gold := round2 (nudged.gold / s) }

/-- A valid slab table starting at boundary `lower`: bounded slabs with
strictly increasing upper bounds and rates in `[0, 1]`, ending in exactly one
unbounded slab.  This is the SlabTable invariant of the spec. -/
def ValidFrom : ℚ → List TaxSlab → Prop
  | _, [] => False
  | _, [s] => s.up_to = none ∧ 0 ≤ s.rate ∧ s.rate ≤ 1
  | lower, s :: t :: rest =>
      ∃ u, s.up_to = some u ∧ lower < u ∧ 0 ≤ s.rate ∧ s.rate ≤ 1 ∧
        ValidFrom u (t :: rest)

end PFC

namespace PFC

/-- In both regime branches the effective rate is `total_tax / gross`, with the
`gross = 0` case defined as `0`. -/
lemma estimate_effective_rate (cfg : TaxConfig) (g : ℚ) (sal : Bool)
    (reg : String) (c d : ℚ) :
    (estimate cfg g sal reg c d).effective_rate
      = if g = 0 then 0 else (estimate cfg g sal reg c d).total_tax / g := by
  unfold estimate
  by_cases h1 : pyLowerStrip reg = "new"
  · simp +decide only [h1, if_true]
  · by_cases h2 : pyLowerStrip reg = "old"
    · simp +decide only [h2, h1, if_false]
    · simp +decide only [h1, h2, if_false, if_true]

/-- Claim C1: for the new regime with `is_salaried = true` and gross annual
income 700000, `estimate` returns taxable income 650000 (gross minus the 50000
standard deduction), a rebate equal to the entire base slab tax (taxable is at
or below the 700000 new-regime rebate threshold), and a total tax of 0. -/
theorem estimate_new_700k_rebate_wipes_tax :
    (estimate defaultTaxConfig 700000 true "new" 0 0).taxable = 650000 ∧
    (estimate defaultTaxConfig 700000 true "new" 0 0).rebate
      = (estimate defaultTaxConfig 700000 true "new" 0 0).base_tax ∧
    (estimate defaultTaxConfig 700000 true "new" 0 0).total_tax = 0 := by
  refine ⟨?_, ?_, ?_⟩ <;>
    · simp +decide only [estimate, defaultTaxConfig, slab_tax, slabTaxAux, segTax]
      norm_num [max_def, min_def]

/-- Claim C5: for the old regime with `is_salaried = true`, gross 1000000,
itemized 80C = 200000 and 80D = 0, `estimate` silently truncates 80C to the
150000 cap (the call is answered, not rejected, and agrees with passing the
cap itself), yielding 150000 of itemized deductions plus the 50000 standard
deduction — 200000 in all — and taxable income 800000. -/
theorem estimate_old_80C_clamped_to_cap :
    (estimate defaultTaxConfig 1000000 true "old" 200000 0).deductions = 150000 ∧
    (estimate defaultTaxConfig 1000000 true "old" 200000 0).std_deduction = 50000 ∧
    (estimate defaultTaxConfig 1000000 true "old" 200000 0).taxable = 800000 ∧
    estimate defaultTaxConfig 1000000 true "old" 200000 0
      = estimate defaultTaxConfig 1000000 true "old" 150000 0 := by
  refine ⟨?_, ?_, ?_, ?_⟩ <;>
    simp +decide only [estimate, defaultTaxConfig, slab_tax, slabTaxAux, segTax] <;>
    norm_num [max_def, min_def]

/-- Claim C9: `estimate` with gross annual income 0 returns an effective rate
of exactly 0 (and, being a total function here, raises nothing), and for
positive gross income the effective rate equals total tax divided by gross
income — in either regime and for any configuration. -/
theorem estimate_effective_rate_zero_and_ratio (cfg : TaxConfig) (sal : Bool)
    (reg : String) (c d g : ℚ) (hg : 0 < g) :
    (estimate cfg 0 sal reg c d).effective_rate = 0 ∧
    (estimate cfg g sal reg c d).effective_rate
      = (estimate cfg g sal reg c d).total_tax / g := by
  constructor
  · rw [estimate_effective_rate]; simp
  · rw [estimate_effective_rate, if_neg hg.ne']

/-- Witness for C9 at `g = 5`, new regime, default configuration. -/
theorem estimate_effective_rate_zero_and_ratio_witness :
    (0:ℚ) < 5 ∧
    ((estimate defaultTaxConfig 0 true "new" 0 0).effective_rate = 0 ∧
     (estimate defaultTaxConfig 5 true "new" 0 0).effective_rate
       = (estimate defaultTaxConfig 5 true "new" 0 0).total_tax / 5) :=
  ⟨by norm_num,
   estimate_effective_rate_zero_and_ratio defaultTaxConfig true "new" 0 0 5 (by norm_num)⟩

/-- Claim C6 is false: `estimate` reports no validation failure for negative
inputs.  A negative gross income is answered normally (taxable and total tax
are silently floored to 0 by the `max(0, ...)` clamp), and a negative itemized
80C value is silently coerced to 0 — the call returns exactly the same record
as a call with 80C = 0. -/
theorem estimate_negative_input_counterexample :
    (estimate defaultTaxConfig (-100000) true "new" 0 0).taxable = 0 ∧
    (estimate defaultTaxConfig (-100000) true "new" 0 0).total_tax = 0 ∧
    estimate defaultTaxConfig 1000000 true "old" (-50000) 0
      = estimate defaultTaxConfig 1000000 true "old" 0 0 := by
  refine ⟨?_, ?_, ?_⟩ <;>
    · simp +decide only [estimate, defaultTaxConfig, slab_tax, slabTaxAux, segTax]
      norm_num [max_def, min_def]

/-- Amended C6: `estimate` performs no validation of negative numeric inputs.
Any negative gross income in the salaried new regime yields a normal result
with taxable income 0 (the `max(0, ...)` floor), and any negative itemized 80C
is silently floored to 0, giving the same result as passing 0 — no failure is
ever reported. -/
theorem estimate_negative_inputs_coerced (cfg : TaxConfig) (sal : Bool)
    (g g' c d : ℚ) (hg : g < 0) (hc : c < 0) :
    (estimate defaultTaxConfig g sal "new" 0 0).taxable = 0 ∧
    estimate cfg g' sal "old" c d = estimate cfg g' sal "old" 0 d := by
  constructor
  · cases sal <;>
      · simp +decide only [estimate, defaultTaxConfig, if_true, if_false]
        exact max_eq_left (by linarith)
  · simp +decide only [estimate, if_true, if_false]
    rw [max_eq_left hc.le, max_self]

/-- One slab's accrual is never negative when its rate is non-negative. -/
lemma segTax_nonneg (x lower upper rate : ℚ) (hr : 0 ≤ rate) :
    0 ≤ segTax x lower upper rate := by
  unfold segTax
  split
  · split
    · next hseg => exact mul_nonneg hseg.le hr
    · exact le_rfl
  · exact le_rfl

/-- One bounded slab's accrual is monotone in the taxable income. -/
lemma segTax_mono (lower upper rate : ℚ) (hr : 0 ≤ rate) {a b : ℚ} (hab : a ≤ b) :
    segTax a lower upper rate ≤ segTax b lower upper rate := by
  rcases lt_or_le lower a with hla | hla
  · unfold segTax
    rw [if_pos hla, if_pos (lt_of_lt_of_le hla hab)]
    have hmin : min a upper - lower ≤ min b upper - lower := by
      have := min_le_min hab (le_refl upper)
      linarith
    rcases lt_or_le 0 (min a upper - lower) with hsa | hsa
    · rw [if_pos hsa, if_pos (lt_of_lt_of_le hsa hmin)]
      exact mul_le_mul_of_nonneg_right hmin hr
    · rw [if_neg (not_lt.2 hsa)]
      split
      · next hsb => exact mul_nonneg hsb.le hr
      · exact le_rfl
  · have h0 : segTax a lower upper rate = 0 := by
      unfold segTax
      rw [if_neg (not_lt.2 hla)]
    rw [h0]
    exact segTax_nonneg b lower upper rate hr

/-- The unbounded final slab accrues `(x - lower) * rate` past `lower`. -/
lemma segTax_self_eq (x lower rate : ℚ) :
    segTax x lower x rate = if lower < x then (x - lower) * rate else 0 := by
  unfold segTax
  simp only [min_self]
  rcases lt_or_le lower x with h | h
  · simp [h, sub_pos.2 h]
  · simp [not_lt.2 h]

/-- The unbounded final slab's accrual is monotone in the taxable income
(which is also its own upper edge). -/
lemma segTax_mono_self (lower rate : ℚ) (hr : 0 ≤ rate) {a b : ℚ} (hab : a ≤ b) :
    segTax a lower a rate ≤ segTax b lower b rate := by
  rw [segTax_self_eq, segTax_self_eq]
  rcases lt_or_le lower a with hla | hla
  · rw [if_pos hla, if_pos (lt_of_lt_of_le hla hab)]
    exact mul_le_mul_of_nonneg_right (by linarith) hr
  · rw [if_neg (not_lt.2 hla)]
    split
    · next hlb => exact mul_nonneg (by linarith) hr
    · exact le_rfl

/-- One unfolding step of the slab loop. -/
lemma slabTaxAux_cons (x : ℚ) (s : TaxSlab) (rest : List TaxSlab) (lower : ℚ) :
    slabTaxAux x (s :: rest) lower
      = segTax x lower (s.up_to.getD x) s.rate +
        (if x ≤ s.up_to.getD x then 0 else slabTaxAux x rest (s.up_to.getD x)) := rfl

/-- The slab loop accrues a non-negative tax whenever all rates are
non-negative. -/
lemma slabTaxAux_nonneg : ∀ (slabs : List TaxSlab),
    (∀ s ∈ slabs, 0 ≤ s.rate) → ∀ (x lower : ℚ), 0 ≤ slabTaxAux x slabs lower := by
  intro slabs
  induction slabs with
  | nil => intro _ x lower; simp [slabTaxAux]
  | cons s rest ih =>
    intro hr x lower
    simp only [slabTaxAux]
    have h1 : 0 ≤ segTax x lower (s.up_to.getD x) s.rate :=
      segTax_nonneg _ _ _ _ (hr s (List.mem_cons_self _ _))
    have h2 : 0 ≤ (if x ≤ s.up_to.getD x then 0 else slabTaxAux x rest (s.up_to.getD x)) := by
      split
      · exact le_rfl
      · exact ih (fun t ht => hr t (List.mem_cons_of_mem _ ht)) x _
    linarith

/-- Every slab of a valid table has a non-negative rate. -/
lemma ValidFrom_rate_nonneg : ∀ (slabs : List TaxSlab) (lower : ℚ),
    ValidFrom lower slabs → ∀ s ∈ slabs, 0 ≤ s.rate := by
  intro slabs
  induction slabs with
  | nil => intro lower hv; exact absurd hv (by simp [ValidFrom])
  | cons s rest ih =>
    intro lower hv t ht
    cases rest with
    | nil =>
      simp only [ValidFrom] at hv
      rcases List.mem_cons.1 ht with rfl | ht'
      · exact hv.2.1
      · exact absurd ht' (List.not_mem_nil t)
    | cons s' rest' =>
      simp only [ValidFrom] at hv
      obtain ⟨u, hup, hlu, hr0, hr1, hv'⟩ := hv
      rcases List.mem_cons.1 ht with rfl | ht'
      · exact hr0
      · exact ih u hv' t ht'

/-- The slab loop is monotone in the taxable income over any valid table. -/
lemma slabTaxAux_mono : ∀ (slabs : List TaxSlab) (lower : ℚ),
    ValidFrom lower slabs → ∀ {a b : ℚ}, a ≤ b →
    slabTaxAux a slabs lower ≤ slabTaxAux b slabs lower := by
  intro slabs
  induction slabs with
  | nil => intro lower hv; exact absurd hv (by simp [ValidFrom])
  | cons s rest ih =>
    intro lower hv a b hab
    cases rest with
    | nil =>
      simp only [ValidFrom] at hv
      obtain ⟨hnone, hr0, hr1⟩ := hv
      simp only [slabTaxAux, hnone, Option.getD_none]
      rw [if_pos le_rfl, if_pos le_rfl, add_zero, add_zero]
      exact segTax_mono_self lower s.rate hr0 hab
    | cons t rest' =>
      simp only [ValidFrom] at hv
      obtain ⟨u, hup, hlu, hr0, hr1, hv'⟩ := hv
      have hseg := segTax_mono lower u s.rate hr0 hab
      have hrest : (if a ≤ u then 0 else slabTaxAux a (t :: rest') u)
          ≤ (if b ≤ u then 0 else slabTaxAux b (t :: rest') u) := by
        rcases le_or_lt a u with hau | hau
        · rw [if_pos hau]
          split
          · exact le_rfl
          · exact slabTaxAux_nonneg (t :: rest') (ValidFrom_rate_nonneg _ u hv') b u
        · rw [if_neg (not_le.2 hau), if_neg (not_le.2 (lt_of_lt_of_le hau hab))]
          exact ih u hv' hab
      rw [slabTaxAux_cons a s (t :: rest') lower, slabTaxAux_cons b s (t :: rest') lower,
        hup]
      simp only [Option.getD_some]
      exact add_le_add hseg hrest

/-- Claim C4: over any valid slab table — contiguous bounded slabs with
strictly increasing upper bounds, rates in `[0, 1]`, ending in one unbounded
slab — the slab tax is monotonically non-decreasing in the non-negative
taxable income. -/
theorem slab_tax_monotone (slabs : List TaxSlab) (a b : ℚ)
    (hv : ValidFrom 0 slabs) (ha : 0 ≤ a) (hab : a ≤ b) :
    slab_tax a slabs ≤ slab_tax b slabs :=
  slabTaxAux_mono slabs 0 hv hab

/-- The default new-regime table is a valid slab table. -/
lemma validFrom_slabs_new : ValidFrom 0 defaultTaxConfig.slabs_new := by
  simp only [defaultTaxConfig, ValidFrom, Option.some.injEq]
  norm_num

/-- Witness for C4 on the default new-regime table, `a = 100000`,
`b = 800000`. -/
theorem slab_tax_monotone_witness :
    ValidFrom 0 defaultTaxConfig.slabs_new ∧ (0 : ℚ) ≤ 100000 ∧
    (100000 : ℚ) ≤ 800000 ∧
    slab_tax 100000 defaultTaxConfig.slabs_new
      ≤ slab_tax 800000 defaultTaxConfig.slabs_new :=
  ⟨validFrom_slabs_new, by norm_num, by norm_num,
   slab_tax_monotone defaultTaxConfig.slabs_new 100000 800000 validFrom_slabs_new
     (by norm_num) (by norm_num)⟩

/-- Rounding an integer changes nothing. -/
lemma bankersRound_coe (n : ℤ) : bankersRound ((n : ℚ)) = n := by
  unfold bankersRound
  rw [Int.floor_intCast]
  simp

/-- Claim C2 is false for `future_value_sip`: at a years value that rounds to
zero months (here `years = 0` with a 12 percent rate) it returns the numeric
result 0 instead of rejecting the non-positive period count. -/
theorem future_value_sip_zero_periods_counterexample :
    future_value_sip 100 12 0 = some 0 := by
  have h0 : bankersRound ((0 : ℚ) * 12) = 0 := by
    rw [show ((0:ℚ) * 12) = ((0:ℤ):ℚ) by norm_num, bankersRound_coe]
  simp only [future_value_sip, h0]
  norm_num

/-- Amended C2: for any years value that rounds to exactly zero months,
`required_sip` and `emi` fail with a division-by-zero error rather than
returning a number, while `future_value_sip` performs no such rejection and
returns the numeric result 0. -/
theorem annuity_zero_period_behaviour (m t p pct y : ℚ)
    (hn : bankersRound (y * 12) = 0) :
    future_value_sip m pct y = some 0 ∧
    required_sip t pct y = none ∧
    emi p pct y = none := by
  refine ⟨?_, ?_, ?_⟩ <;>
    · simp only [future_value_sip, required_sip, emi, hn]
      by_cases hr : pct / 100 / 12 = 0 <;> simp [hr]

/-- Witness for the amended C2 at `y = 0`. -/
theorem annuity_zero_period_behaviour_witness :
    bankersRound ((0 : ℚ) * 12) = 0 ∧
    (future_value_sip 1 12 0 = some 0 ∧
     required_sip 1 12 0 = none ∧
     emi 1 12 0 = none) :=
  ⟨by rw [show ((0:ℚ) * 12) = ((0:ℤ):ℚ) by norm_num, bankersRound_coe],
   annuity_zero_period_behaviour 1 1 1 12 0
     (by rw [show ((0:ℚ) * 12) = ((0:ℤ):ℚ) by norm_num, bankersRound_coe])⟩

/-- Claim C3: for a non-negative annual rate and a years value yielding at
least one monthly period, `required_sip` inverts `future_value_sip` in the
contribution variable — exactly, over the rationals. -/
theorem required_sip_inverts_future_value_sip (x pct y : ℚ) (hp : 0 ≤ pct)
    (hn : 1 ≤ bankersRound (y * 12)) :
    ∃ fv, future_value_sip x pct y = some fv ∧ required_sip fv pct y = some x := by
  have hr0 : 0 ≤ pct / 100 / 12 := by positivity
  by_cases hz : pct / 100 / 12 = 0
  · refine ⟨x * ((bankersRound (y * 12) : ℤ) : ℚ), ?_, ?_⟩
    · simp only [future_value_sip, if_pos hz]
    · have hne : ((bankersRound (y * 12) : ℤ) : ℚ) ≠ 0 := by
        exact_mod_cast (by omega : bankersRound (y * 12) ≠ 0)
      simp only [required_sip, if_pos hz, if_neg (by omega : ¬bankersRound (y * 12) = 0)]
      rw [mul_div_cancel_right₀ x hne]
  · have hrpos : 0 < pct / 100 / 12 := lt_of_le_of_ne hr0 (Ne.symm hz)
    set r := pct / 100 / 12 with hrdef
    set n := bankersRound (y * 12) with hndef
    have h1r : (1 : ℚ) < 1 + r := by linarith
    have h1rpos : (0 : ℚ) < 1 + r := by linarith
    have hA : (1 : ℚ) < (1 + r) ^ n := by
      have hn' : n = ((n.toNat : ℤ)) := (Int.toNat_of_nonneg (by omega)).symm
      rw [hn', zpow_natCast]
      exact one_lt_pow₀ h1r (by omega)
    have hd : (0 : ℚ) < ((1 + r) ^ n - 1) / r * (1 + r) :=
      mul_pos (div_pos (by linarith) hrpos) h1rpos
    refine ⟨x * ((1 + r) ^ n - 1) / r * (1 + r), ?_, ?_⟩
    · simp only [future_value_sip, ← hrdef, ← hndef, if_neg hz]
      rw [if_neg (show ¬(1 + r = 0 ∧ n < 0) by rintro ⟨h, -⟩; linarith)]
    · simp only [required_sip, ← hrdef, ← hndef, if_neg hz]
      rw [if_neg (show ¬(1 + r = 0 ∧ n < 0) by rintro ⟨h, -⟩; linarith),
        if_neg hd.ne']
      have hfv : x * ((1 + r) ^ n - 1) / r * (1 + r)
          = x * (((1 + r) ^ n - 1) / r * (1 + r)) := by ring
      rw [hfv, mul_div_cancel_right₀ x hd.ne']

/-- Witness for C3 at `x = 2`, 12 percent, one year. -/
theorem required_sip_inverts_future_value_sip_witness :
    (0 : ℚ) ≤ 12 ∧ 1 ≤ bankersRound ((1 : ℚ) * 12) ∧
    (∃ fv, future_value_sip 2 12 1 = some fv ∧ required_sip fv 12 1 = some 2) := by
  have h12 : bankersRound ((1 : ℚ) * 12) = 12 := by
    rw [show ((1:ℚ) * 12) = ((12:ℤ):ℚ) by norm_num, bankersRound_coe]
  exact ⟨by norm_num, by rw [h12]; norm_num,
    required_sip_inverts_future_value_sip 2 12 1 (by norm_num) (by rw [h12]; norm_num)⟩

/-- Claim C8: `retirement_target` returns the inflated monthly expense
`monthly * (1 + inflation_pct/100) ^ years_to_retire` and the corpus
`inflated * 12 / (swr_pct/100)`, whenever the computation is defined
(`swr_pct` nonzero and no zero base raised to a negative power); and the
result never depends on the `retired_years` argument, which does not enter
the formula at all. -/
theorem retirement_target_formula (m : ℚ) (y ry ry' : ℤ) (infl swr : ℚ)
    (hs : swr ≠ 0) (hb : ¬(1 + infl / 100 = 0 ∧ y < 0)) :
    retirement_target m y ry infl swr
      = some (m * (1 + infl / 100) ^ y * 12 / (swr / 100),
              m * (1 + infl / 100) ^ y) ∧
    retirement_target m y ry infl swr = retirement_target m y ry' infl swr := by
  refine ⟨?_, rfl⟩
  simp only [retirement_target, if_neg hb, if_neg hs]
  rw [div_div_eq_mul_div]

/-- Witness for C8: expenses 10000, 10 years out, retired-years 25 vs 30. -/
theorem retirement_target_formula_witness :
    (3.5 : ℚ) ≠ 0 ∧ ¬((1 : ℚ) + 6 / 100 = 0 ∧ (10 : ℤ) < 0) ∧
    (retirement_target 10000 10 25 6 3.5
       = some (10000 * (1 + (6:ℚ) / 100) ^ (10:ℤ) * 12 / ((3.5:ℚ) / 100),
               10000 * (1 + (6:ℚ) / 100) ^ (10:ℤ)) ∧
     retirement_target 10000 10 25 6 3.5 = retirement_target 10000 10 30 6 3.5) :=
  ⟨by norm_num, by norm_num,
   retirement_target_formula 10000 10 25 30 6 3.5 (by norm_num) (by norm_num)⟩

/-- Rounding with `round2` fixes any rational that is already a whole number of
hundredths. -/
lemma round2_eq_self (q : ℚ) (n : ℤ) (h : q * 100 = (n : ℚ)) : round2 q = q := by
  unfold round2
  rw [h, bankersRound_coe, ← h,
    mul_div_cancel_right₀ _ (by norm_num : (100 : ℚ) ≠ 0)]

/-- Evaluation of `suggest_allocation` for conservative risk, horizon at least 10. -/
lemma sa_conservative_long (h : ℤ) (h10 : 10 ≤ h) :
    suggest_allocation "conservative" h = ⟨0.35, 0.55, 0.1⟩ := by
  have e1 : clamp ((0.3 : ℚ) + 0.05) 0.2 0.9 = 0.35 := by
    norm_num [clamp, min_def, max_def]
  have e2 : clamp (1 - (0.35 : ℚ) - 0.1) 0.05 0.75 = 0.55 := by
    norm_num [clamp, min_def, max_def]
  have e3 : (0.35 : ℚ) + 0.55 + 0.1 = 1 := by norm_num
  simp +decide only [suggest_allocation, riskTable, if_true, if_false, Option.getD_some]
  rw [if_pos h10, e1, e2, e3]
  simp only [div_one]
  rw [round2_eq_self (0.35 : ℚ) 35 (by norm_num),
    round2_eq_self (0.55 : ℚ) 55 (by norm_num),
    round2_eq_self (0.1 : ℚ) 10 (by norm_num)]

/-- Evaluation of `suggest_allocation` for conservative risk, horizon at most 3. -/
lemma sa_conservative_short (h : ℤ) (h3 : h ≤ 3) (h10 : ¬10 ≤ h) :
    suggest_allocation "conservative" h = ⟨0.15, 0.75, 0.1⟩ := by
  have e1 : clamp ((0.3 : ℚ) - 0.15) 0.1 0.7 = 0.15 := by
    norm_num [clamp, min_def, max_def]
  have e2 : clamp (1 - (0.15 : ℚ) - 0.1) 0.2 0.85 = 0.75 := by
    norm_num [clamp, min_def, max_def]
  have e3 : (0.15 : ℚ) + 0.75 + 0.1 = 1 := by norm_num
  simp +decide only [suggest_allocation, riskTable, if_true, if_false, Option.getD_some]
  rw [if_neg h10, if_pos h3, e1, e2, e3]
  simp only [div_one]
  rw [round2_eq_self (0.15 : ℚ) 15 (by norm_num),
    round2_eq_self (0.75 : ℚ) 75 (by norm_num),
    round2_eq_self (0.1 : ℚ) 10 (by norm_num)]

/-- Evaluation of `suggest_allocation` for conservative risk, horizon strictly between 3
and 10. -/
lemma sa_conservative_mid (h : ℤ) (h10 : ¬10 ≤ h) (h3 : ¬h ≤ 3) :
    suggest_allocation "conservative" h = ⟨0.3, 0.6, 0.1⟩ := by
  have e3 : (0.3 : ℚ) + 0.6 + 0.1 = 1 := by norm_num
  simp +decide only [suggest_allocation, riskTable, if_true, if_false, Option.getD_some]
  rw [if_neg h10, if_neg h3, e3]
  simp only [div_one]
  rw [round2_eq_self (0.3 : ℚ) 30 (by norm_num),
    round2_eq_self (0.6 : ℚ) 60 (by norm_num),
    round2_eq_self (0.1 : ℚ) 10 (by norm_num)]

/-- Evaluation of `suggest_allocation` for moderate risk, horizon at least 10. -/
lemma sa_moderate_long (h : ℤ) (h10 : 10 ≤ h) :
    suggest_allocation "moderate" h = ⟨0.65, 0.25, 0.1⟩ := by
  have e1 : clamp ((0.6 : ℚ) + 0.05) 0.2 0.9 = 0.65 := by
    norm_num [clamp, min_def, max_def]
  have e2 : clamp (1 - (0.65 : ℚ) - 0.1) 0.05 0.75 = 0.25 := by
    norm_num [clamp, min_def, max_def]
  have e3 : (0.65 : ℚ) + 0.25 + 0.1 = 1 := by norm_num
  simp +decide only [suggest_allocation, riskTable, if_true, if_false, Option.getD_some]
  rw [if_pos h10, e1, e2, e3]
  simp only [div_one]
  rw [round2_eq_self (0.65 : ℚ) 65 (by norm_num),
    round2_eq_self (0.25 : ℚ) 25 (by norm_num),
    round2_eq_self (0.1 : ℚ) 10 (by norm_num)]

/-- Evaluation of `suggest_allocation` for moderate risk, horizon at most 3. -/
lemma sa_moderate_short (h : ℤ) (h3 : h ≤ 3) (h10 : ¬10 ≤ h) :
    suggest_allocation "moderate" h = ⟨0.45, 0.45, 0.1⟩ := by
  have e1 : clamp ((0.6 : ℚ) - 0.15) 0.1 0.7 = 0.45 := by
    norm_num [clamp, min_def, max_def]
  have e2 : clamp (1 - (0.45 : ℚ) - 0.1) 0.2 0.85 = 0.45 := by
    norm_num [clamp, min_def, max_def]
  have e3 : (0.45 : ℚ) + 0.45 + 0.1 = 1 := by norm_num
  simp +decide only [suggest_allocation, riskTable, if_true, if_false, Option.getD_some]
  rw [if_neg h10, if_pos h3, e1, e2, e3]
  simp only [div_one]
  rw [round2_eq_self (0.45 : ℚ) 45 (by norm_num),
    round2_eq_self (0.1 : ℚ) 10 (by norm_num)]

/-- Evaluation of `suggest_allocation` for moderate risk, horizon strictly between 3
and 10. -/
lemma sa_moderate_mid (h : ℤ) (h10 : ¬10 ≤ h) (h3 : ¬h ≤ 3) :
    suggest_allocation "moderate" h = ⟨0.6, 0.3, 0.1⟩ := by
  have e3 : (0.6 : ℚ) + 0.3 + 0.1 = 1 := by norm_num
  simp +decide only [suggest_allocation, riskTable, if_true, if_false, Option.getD_some]
  rw [if_neg h10, if_neg h3, e3]
  simp only [div_one]
  rw [round2_eq_self (0.6 : ℚ) 60 (by norm_num),
    round2_eq_self (0.3 : ℚ) 30 (by norm_num),
    round2_eq_self (0.1 : ℚ) 10 (by norm_num)]

/-- Evaluation of `suggest_allocation` for aggressive risk, horizon at least 10. -/
lemma sa_aggressive_long (h : ℤ) (h10 : 10 ≤ h) :
    suggest_allocation "aggressive" h = ⟨0.85, 0.1, 0.05⟩ := by
  have e1 : clamp ((0.8 : ℚ) + 0.05) 0.2 0.9 = 0.85 := by
    norm_num [clamp, min_def, max_def]
  have e2 : clamp (1 - (0.85 : ℚ) - 0.05) 0.05 0.75 = 0.1 := by
    norm_num [clamp, min_def, max_def]
  have e3 : (0.85 : ℚ) + 0.1 + 0.05 = 1 := by norm_num
  simp +decide only [suggest_allocation, riskTable, if_true, if_false, Option.getD_some]
  rw [if_pos h10, e1, e2, e3]
  simp only [div_one]
  rw [round2_eq_self (0.85 : ℚ) 85 (by norm_num),
    round2_eq_self (0.1 : ℚ) 10 (by norm_num),
    round2_eq_self (0.05 : ℚ) 5 (by norm_num)]

/-- Evaluation of `suggest_allocation` for aggressive risk, horizon at most 3. -/
lemma sa_aggressive_short (h : ℤ) (h3 : h ≤ 3) (h10 : ¬10 ≤ h) :
    suggest_allocation "aggressive" h = ⟨0.65, 0.3, 0.05⟩ := by
  have e1 : clamp ((0.8 : ℚ) - 0.15) 0.1 0.7 = 0.65 := by
    norm_num [clamp, min_def, max_def]
  have e2 : clamp (1 - (0.65 : ℚ) - 0.05) 0.2 0.85 = 0.3 := by
    norm_num [clamp, min_def, max_def]
  have e3 : (0.65 : ℚ) + 0.3 + 0.05 = 1 := by norm_num
  simp +decide only [suggest_allocation, riskTable, if_true, if_false, Option.getD_some]
  rw [if_neg h10, if_pos h3, e1, e2, e3]
  simp only [div_one]
  rw [round2_eq_self (0.65 : ℚ) 65 (by norm_num),
    round2_eq_self (0.3 : ℚ) 30 (by norm_num),
    round2_eq_self (0.05 : ℚ) 5 (by norm_num)]

/-- Evaluation of `suggest_allocation` for aggressive risk, horizon strictly between 3
and 10. -/
lemma sa_aggressive_mid (h : ℤ) (h10 : ¬10 ≤ h) (h3 : ¬h ≤ 3) :
    suggest_allocation "aggressive" h = ⟨0.8, 0.15, 0.05⟩ := by
  have e3 : (0.8 : ℚ) + 0.15 + 0.05 = 1 := by norm_num
  simp +decide only [suggest_allocation, riskTable, if_true, if_false, Option.getD_some]
  rw [if_neg h10, if_neg h3, e3]
  simp only [div_one]
  rw [round2_eq_self (0.8 : ℚ) 80 (by norm_num),
    round2_eq_self (0.15 : ℚ) 15 (by norm_num),
    round2_eq_self (0.05 : ℚ) 5 (by norm_num)]

/-- Claim C7: for each of the three risk categories and any horizon of at
least one year, `suggest_allocation` returns three non-negative weights whose
sum is within 0.01 of 1 (here in fact exactly 1). -/
theorem suggest_allocation_weights_valid (risk : String) (h : ℤ)
    (hr : risk = "conservative" ∨ risk = "moderate" ∨ risk = "aggressive")
    (hh : 1 ≤ h) :
    0 ≤ (suggest_allocation risk h).equity ∧
    0 ≤ (suggest_allocation risk h).debt ∧
    0 ≤ (suggest_allocation risk h).gold ∧
    |(suggest_allocation risk h).equity + (suggest_allocation risk h).debt
      + (suggest_allocation risk h).gold - 1| ≤ 1/100 := by
  rcases hr with rfl | rfl | rfl
  · rcases le_or_lt 10 h with h10 | h10
    · rw [sa_conservative_long h h10]; norm_num [abs_le]
    · rcases le_or_lt h 3 with h3 | h3
      · rw [sa_conservative_short h h3 (by omega)]; norm_num [abs_le]
      · rw [sa_conservative_mid h (by omega) (by omega)]; norm_num [abs_le]
  · rcases le_or_lt 10 h with h10 | h10
    · rw [sa_moderate_long h h10]; norm_num [abs_le]
    · rcases le_or_lt h 3 with h3 | h3
      · rw [sa_moderate_short h h3 (by omega)]; norm_num [abs_le]
      · rw [sa_moderate_mid h (by omega) (by omega)]; norm_num [abs_le]
  · rcases le_or_lt 10 h with h10 | h10
    · rw [sa_aggressive_long h h10]; norm_num [abs_le]
    · rcases le_or_lt h 3 with h3 | h3
      · rw [sa_aggressive_short h h3 (by omega)]; norm_num [abs_le]
      · rw [sa_aggressive_mid h (by omega) (by omega)]; norm_num [abs_le]

/-- Witness for C7: conservative risk, horizon 5. -/
theorem suggest_allocation_weights_valid_witness :
    ("conservative" = "conservative" ∨ "conservative" = "moderate"
      ∨ "conservative" = "aggressive") ∧ (1 : ℤ) ≤ 5 ∧
    (0 ≤ (suggest_allocation "conservative" 5).equity ∧
     0 ≤ (suggest_allocation "conservative" 5).debt ∧
     0 ≤ (suggest_allocation "conservative" 5).gold ∧
     |(suggest_allocation "conservative" 5).equity
       + (suggest_allocation "conservative" 5).debt
       + (suggest_allocation "conservative" 5).gold - 1| ≤ 1/100) :=
  ⟨Or.inl rfl, by norm_num,
   suggest_allocation_weights_valid "conservative" 5 (Or.inl rfl) (by norm_num)⟩

/-- Claim C10: any risk string that does not normalize (lowercase, strip) to
one of the three known categories makes `suggest_allocation` silently fall
back to the moderate base split before the horizon nudges — the result is the
same as for "moderate" — rather than fail. -/
theorem suggest_allocation_unknown_risk_moderate (risk : String) (h : ℤ)
    (h1 : pyLowerStrip risk ≠ "conservative") (h2 : pyLowerStrip risk ≠ "moderate")
    (h3 : pyLowerStrip risk ≠ "aggressive") :
    suggest_allocation risk h = suggest_allocation "moderate" h := by
  simp +decide only [suggest_allocation, riskTable, h1, h2, h3, if_false, if_true,
    Option.getD_some, Option.getD_none]

/-- Witness for C10: the unknown risk string "balanced" at horizon 5. -/
theorem suggest_allocation_unknown_risk_moderate_witness :
    pyLowerStrip "balanced" ≠ "conservative" ∧ pyLowerStrip "balanced" ≠ "moderate" ∧
    pyLowerStrip "balanced" ≠ "aggressive" ∧
    suggest_allocation "balanced" 5 = suggest_allocation "moderate" 5 :=
  ⟨by decide, by decide, by decide,
   suggest_allocation_unknown_risk_moderate "balanced" 5 (by decide) (by decide)
     (by decide)⟩

/-- Witness for the amended C6 at `g = -100000`, `c = -50000`. -/
theorem estimate_negative_inputs_coerced_witness :
    (-100000 : ℚ) < 0 ∧ (-50000 : ℚ) < 0 ∧
    ((estimate defaultTaxConfig (-100000) true "new" 0 0).taxable = 0 ∧
     estimate defaultTaxConfig 1000000 true "old" (-50000) 0
       = estimate defaultTaxConfig 1000000 true "old" 0 0) :=
  ⟨by norm_num, by norm_num,
   estimate_negative_inputs_coerced defaultTaxConfig true (-100000) 1000000 (-50000) 0
     (by norm_num) (by norm_num)⟩

end PFC
